import Mathlib

/-!
Shallow embedding of the sensei-raw-ctl SteelSeries Sensei Raw control
utility (sensei-raw-ctl.c, with the GTK front-end sensei-raw-ctl-gui.c),
together with theorems checking the natural-language specification of the
configuration codec, the discovery logic, the session lifecycle and the
CLI option handling against this embedding.

Bytes are modelled as `Nat` reduced `% 256` where the C code narrows to
`unsigned char`; libusb error codes are modelled as `Int` (negative in
practice, but nothing here depends on the sign).
-/

namespace Sensei

/-! ## Enumerations (sensei-raw-ctl.c, lines 121-154)

Each device-facing enumeration is a closed tagged set; the `…Code`
functions give the explicit wire value of each tag exactly as the C
`enum` declarations assign them (first tag `= 1`, the rest consecutive).
-/

/-- Backlight pulsation (`enum sensei_pulsation`). -/
inductive Pulsation where
  | steady
  | slow
  | medium
  | fast
deriving DecidableEq

/-- Wire value of a pulsation tag: `PULSATION_STEADY = 1`, then consecutive. -/
def pulsationCode : Pulsation → Nat
  | .steady => 1
  | .slow => 2
  | .medium => 3
  | .fast => 4

/-- Device mode (`enum sensei_mode`). -/
inductive Mode where
  | legacy
  | normal
deriving DecidableEq

/-- Wire value of a mode tag: `MODE_LEGACY = 1`, `MODE_NORMAL = 2`. -/
def modeCode : Mode → Nat
  | .legacy => 1
  | .normal => 2

/-- Backlight intensity (`enum sensei_intensity`). -/
inductive Intensity where
  | off
  | low
  | medium
  | high
deriving DecidableEq

/-- Wire value of an intensity tag: `INTENSITY_OFF = 1`, then consecutive. -/
def intensityCode : Intensity → Nat
  | .off => 1
  | .low => 2
  | .medium => 3
  | .high => 4

/-- Polling frequency (`enum sensei_polling`). -/
inductive Polling where
  | p1000
  | p500
  | p250
  | p125
deriving DecidableEq

/-- Wire value of a polling tag: `POLLING_1000_HZ = 1`, then consecutive. -/
def pollingCode : Polling → Nat
  | .p1000 => 1
  | .p500 => 2
  | .p250 => 3
  | .p125 => 4

/-- Real frequency in Hz named by a polling tag. -/
def pollingHz : Polling → Nat
  | .p1000 => 1000
  | .p500 => 500
  | .p250 => 250
  | .p125 => 125

/-- `struct sensei_config` (lines 156-165).  The C struct stores the raw
integer read back from the device in `enum`-typed fields, which in C can
hold any value; we therefore model every field as a raw `Nat`. -/
structure SenseiConfig where
  mode : Nat
  cpi_off : Nat
  cpi_on : Nat
  pulsation : Nat
  intensity : Nat
  polling : Nat
deriving DecidableEq

/-! ## Command encoding (lines 167-230) -/

/-- The 32-byte command buffer `unsigned char cmd[32] = { b0, b1, b2 }`:
the three given initialisers narrowed to `unsigned char`, the remaining
29 bytes implicitly zero. -/
def commandBuffer (b0 b1 b2 : Nat) : List Nat :=
  b0 % 256 :: b1 % 256 :: b2 % 256 :: List.replicate 29 0

/-- `sensei_set_mode`: `{ 0x02, 0x00, mode }`. -/
def sensei_set_mode (mode : Nat) : List Nat :=
  commandBuffer 0x02 0x00 mode

/-- `sensei_set_intensity`: `{ 0x05, 0x01, intensity }`. -/
def sensei_set_intensity (intensity : Nat) : List Nat :=
  commandBuffer 0x05 0x01 intensity

/-- `sensei_set_pulsation`: `{ 0x07, 0x01, pulsation }`. -/
def sensei_set_pulsation (pulsation : Nat) : List Nat :=
  commandBuffer 0x07 0x01 pulsation

/-- `sensei_set_cpi`: `{ 0x03, led_status ? 2 : 1, cpi }`. -/
def sensei_set_cpi (cpi : Nat) (led_status : Bool) : List Nat :=
  commandBuffer 0x03 (if led_status then 2 else 1) cpi

/-- `sensei_set_polling`: `{ 0x04, 0x00, polling }`. -/
def sensei_set_polling (polling : Nat) : List Nat :=
  commandBuffer 0x04 0x00 polling

/-- `sensei_save_to_rom`: `{ 0x09, 0x00, 0x00 }`. -/
def sensei_save_to_rom : List Nat :=
  commandBuffer 0x09 0x00 0x00

/-! ## Status read and decode (lines 232-251) -/

/-- `sensei_load_config` (lines 232-251), the pure extraction part: the
256-byte feature report is modelled as an offset-indexed byte function,
and the five configuration fields are read from the fixed offsets
102, 103, 107, 108 and 128.  The C code leaves `config->mode`
uninitialised and never reads it on this path; we model it as 0. -/
def sensei_load_config (data : Nat → Nat) : SenseiConfig :=
  { mode := 0
    intensity := data 102
    pulsation := data 103
    cpi_off := data 107
    cpi_on := data 108
    polling := data 128 }

/-! ## Display (lines 255-290)

The `switch` statements of `sensei_display_config` are split into a
decode step (raw byte to tagged value, `none` when the byte matches no
`case`) and a naming step (the literal printed for each tag, `"unknown"`
for the `default:` arm). -/

/-- Decode a raw intensity byte per the `switch (config->intensity)` cases. -/
def intensityOfCode : Nat → Option Intensity
  | 1 => some .off
  | 2 => some .low
  | 3 => some .medium
  | 4 => some .high
  | _ => none

/-- Decode a raw pulsation byte per the `switch (config->pulsation)` cases. -/
def pulsationOfCode : Nat → Option Pulsation
  | 1 => some .steady
  | 2 => some .slow
  | 3 => some .medium
  | 4 => some .fast
  | _ => none

/-- Decode a raw polling byte per the `switch (config->polling)` cases. -/
def pollingOfCode : Nat → Option Polling
  | 1 => some .p1000
  | 2 => some .p500
  | 3 => some .p250
  | 4 => some .p125
  | _ => none

/-- Printed value for an intensity decode result. -/
def intensityName : Option Intensity → String
  | some .off => "off"
  | some .low => "low"
  | some .medium => "medium"
  | some .high => "high"
  | none => "unknown"

/-- Printed value for a pulsation decode result. -/
def pulsationName : Option Pulsation → String
  | some .steady => "steady"
  | some .slow => "slow"
  | some .medium => "medium"
  | some .fast => "fast"
  | none => "unknown"

/-- Printed value for a polling decode result. -/
def pollingName : Option Polling → String
  | some .p1000 => "1000Hz"
  | some .p500 => "500Hz"
  | some .p250 => "250Hz"
  | some .p125 => "125Hz"
  | none => "unknown"

/-- `sensei_display_config` (lines 255-290) as the list of
(label, value) lines it prints, in program order. -/
def sensei_display_config (config : SenseiConfig) : List (String × String) :=
  [("Backlight intensity", intensityName (intensityOfCode config.intensity)),
   ("Backlight pulsation", pulsationName (pulsationOfCode config.pulsation)),
   ("Speed in CPI (LED is off)", toString (90 * config.cpi_off)),
   ("Speed in CPI (LED is on)", toString (90 * config.cpi_on)),
   ("Polling frequency", pollingName (pollingOfCode config.polling))]

/-! ## CPI quantisation (encode_cpi, lines 325-350)

`encode_cpi` first validates the textual argument (non-numeric or
negative input exits the program in the excluded option-parsing layer);
the numeric core below takes the already-validated non-negative value.
It returns the chosen step plus the two notice flags (CPI too low /
too high). -/

/-- The numeric core of `encode_cpi`: `cpi /= 90` (C integer division,
which on the validated non-negative input is truncation), then raise
results below `SENSEI_CPI_MIN = 1` to 1 with a notice, then lower results
above `SENSEI_CPI_MAX = 0x3f` to 63 with a notice. -/
def encode_cpi (cpi : Nat) : Nat × Bool × Bool :=
  let q := cpi / 90
  let low := q < 1
  let q1 := if q < 1 then 1 else q
  let high := q1 > 63
  let q2 := if q1 > 63 then 63 else q1
  (q2, low, high)

/-! ## Options and apply_options (lines 292-302, 474-513) -/

/-- `struct options` (lines 292-302): one flag per command-line request. -/
structure Options where
  show_config : Bool
  save_to_rom : Bool
  set_pulsation : Bool
  set_mode : Bool
  set_intensity : Bool
  set_polling : Bool
  set_cpi_off : Bool
  set_cpi_on : Bool
deriving DecidableEq

/-- The device as seen by `apply_options`: the outcome of each
SET_REPORT transfer (`none` = success, `some e` = libusb error `e`) and
the outcome of the GET_REPORT status read (the 256-byte report on
success). -/
structure Device where
  send : List Nat → Option Int
  load : Except Int (Nat → Nat)

/-- Result of `apply_options`: either the displayed lines (show path) or
plain success. -/
inductive ApplyOutput where
  | shown (lines : List (String × String))
  | done
deriving DecidableEq

/-- The write commands `apply_options` (lines 488-510) would issue, in
program order: each `if (options->set_…)` block contributes its single
command.  The textual order in the C function is mode, polling,
intensity, pulsation, CPI (LED off), CPI (LED on), save-to-ROM. -/
def plannedWrites (o : Options) (nc : SenseiConfig) : List (List Nat) :=
  (if o.set_mode then [sensei_set_mode nc.mode] else []) ++
  (if o.set_polling then [sensei_set_polling nc.polling] else []) ++
  (if o.set_intensity then [sensei_set_intensity nc.intensity] else []) ++
  (if o.set_pulsation then [sensei_set_pulsation nc.pulsation] else []) ++
  (if o.set_cpi_off then [sensei_set_cpi nc.cpi_off false] else []) ++
  (if o.set_cpi_on then [sensei_set_cpi nc.cpi_on true] else []) ++
  (if o.save_to_rom then [sensei_save_to_rom] else [])

/-- Issue a sequence of commands the way the `if ((result = …)) return
result;` chain in `apply_options` does: each command in turn, returning
the first failure immediately (later commands are not attempted).
Returns the commands actually sent plus the first error, if any. -/
def runWrites (send : List Nat → Option Int) :
    List (List Nat) → List (List Nat) × Option Int
  | [] => ([], none)
  | c :: rest =>
    match send c with
    | some e => ([c], some e)
    | none =>
      let r := runWrites send rest
      (c :: r.1, r.2)

/-- `apply_options` (lines 474-513): with `--show` set it only loads and
displays the configuration and returns; otherwise it issues the guarded
write sequence, aborting at the first failure.  Returns the write
commands issued plus the outcome. -/
def apply_options (dev : Device) (o : Options) (nc : SenseiConfig) :
    List (List Nat) × Except Int ApplyOutput :=
  if o.show_config then
    match dev.load with
    | .error e => ([], .error e)
    | .ok report =>
      ([], .ok (.shown (sensei_display_config (sensei_load_config report))))
  else
    let r := runWrites dev.send (plannedWrites o nc)
    (r.1, match r.2 with
          | some e => .error e
          | none => .ok .done)

/-! ## Device discovery (lines 40-104, 537-553) -/

/-- Fixed vendor / product identifiers (lines 108-110). -/
def USB_VENDOR_STEELSERIES : Nat := 0x1038

/-- Primary SKU. -/
def USB_PRODUCT_STEELSERIES_SENSEI_RAW : Nat := 0x1369

/-- Variant SKU (Call of Duty: Black Ops II edition). -/
def USB_PRODUCT_STEELSERIES_COD_BO2 : Nat := 0x136f

/-- The accepted product list of `main` (lines 537-541), in priority
order. -/
def products : List Nat :=
  [USB_PRODUCT_STEELSERIES_SENSEI_RAW, USB_PRODUCT_STEELSERIES_COD_BO2]

/-- One enumerated USB device: its descriptor identifiers, whether
`libusb_get_device_descriptor` succeeds on it (failures are skipped by
the scan loop), and the outcome of `libusb_open` (`none` = opens fine,
`some e` = open fails with error `e`). -/
structure UsbDevice where
  idVendor : Nat
  idProduct : Nat
  descOk : Bool
  openErr : Option Int
deriving DecidableEq

/-- Outcome of discovery: an opened device, an open failure with its
libusb error, or the distinguished no-suitable-device condition
(`find_device_list` returning NULL with no error recorded). -/
inductive FindResult where
  | opened (d : UsbDevice)
  | openError (e : Int)
  | noDevice
deriving DecidableEq

/-- The matching test of the scan loop in `find_device` (lines 54-67):
descriptor readable and both identifiers equal. -/
def deviceMatches (vendor product : Nat) (d : UsbDevice) : Bool :=
  d.descOk && d.idVendor == vendor && d.idProduct == product

/-- `find_device` (lines 40-82): scan the enumerated device list for the
first match; open only that one.  Second component: the devices an open
was attempted on (at most one). -/
def find_device (devs : List UsbDevice) (vendor product : Nat) :
    FindResult × List UsbDevice :=
  match devs.find? (deviceMatches vendor product) with
  | none => (.noDevice, [])
  | some d =>
    match d.openErr with
    | none => (.opened d, [d])
    | some e => (.openError e, [d])

/-- `find_device_list` (lines 84-104): try each product id in order;
return on the first opened handle; break out (reporting the error)
as soon as an open error occurs; fall through to the next product id
only when no device matched the current one. -/
def find_device_list (devs : List UsbDevice) (vendor : Nat) :
    List Nat → FindResult × List UsbDevice
  | [] => (.noDevice, [])
  | p :: ps =>
    match find_device devs vendor p with
    | (.opened d, tr) => (.opened d, tr)
    | (.openError e, tr) => (.openError e, tr)
    | (.noDevice, _) => find_device_list devs vendor ps

/-! ## Session lifecycle (main, lines 555-605)

The `goto`-based control flow of `main` after the device is opened is
linear: kernel-driver query, optional detach, claim, the operation,
then the teardown labels `error_4` (release), `error_3` (reattach if a
driver was detached), `error_2` (close).  The `ERROR` macro prints a
message, sets `status = 1` and jumps to the given label; since each
failing step jumps exactly to the label the successful path falls
through to, every teardown step is attempted. -/

/-- libusb's code for "not supported on this platform". -/
def LIBUSB_ERROR_NOT_SUPPORTED : Int := -12

/-- The error messages `main` can print, in the order of the steps. -/
inductive SessionError where
  | queryFailed
  | detachFailed
  | claimFailed
  | opFailed
  | releaseFailed
  | attachFailed
deriving DecidableEq

/-- Environment outcomes of each libusb call in one session:
`driverQuery` is the raw return of `libusb_kernel_driver_active`; the
`Option Int` fields are `none` on success and `some e` on failure. -/
structure SessionInput where
  driverQuery : Int
  detachErr : Option Int
  claimErr : Option Int
  opErr : Option Int
  releaseErr : Option Int
  attachErr : Option Int
deriving DecidableEq

/-- Observable trace of one session: how many times each libusb call ran,
the error messages printed in order, and the process exit status. -/
structure SessionTrace where
  detachCalls : Nat
  claimCalls : Nat
  opCalls : Nat
  releaseCalls : Nat
  attachCalls : Nat
  closeCalls : Nat
  errors : List SessionError
  status : Nat
deriving DecidableEq

/-- The all-zero trace at session start (`status = 0`). -/
def emptyTrace : SessionTrace :=
  { detachCalls := 0, claimCalls := 0, opCalls := 0, releaseCalls := 0
    attachCalls := 0, closeCalls := 0, errors := [], status := 0 }

/-- The `ERROR` macro's observable effect: print the message, set
`status = 1` (the jump is modelled by the call structure below). -/
def reportError (t : SessionTrace) (m : SessionError) : SessionTrace :=
  { t with errors := t.errors ++ [m], status := 1 }

/-- Label `error_2`: `libusb_close`. -/
def stageClose (t : SessionTrace) : SessionTrace :=
  { t with closeCalls := t.closeCalls + 1 }

/-- Label `error_3`: reattach the kernel driver iff one was detached,
then fall through to `error_2`.  A reattach failure jumps to `error_2`,
which is also the fall-through target. -/
def stageReattach (inp : SessionInput) (reattach : Bool)
    (t : SessionTrace) : SessionTrace :=
  if reattach then
    let t1 := { t with attachCalls := t.attachCalls + 1 }
    match inp.attachErr with
    | some _ => stageClose (reportError t1 .attachFailed)
    | none => stageClose t1
  else stageClose t

/-- Label `error_4`: release the interface, then fall through to
`error_3`.  A release failure jumps to `error_3`, which is also the
fall-through target. -/
def stageRelease (inp : SessionInput) (reattach : Bool)
    (t : SessionTrace) : SessionTrace :=
  let t1 := { t with releaseCalls := t.releaseCalls + 1 }
  match inp.releaseErr with
  | some _ => stageReattach inp reattach (reportError t1 .releaseFailed)
  | none => stageReattach inp reattach t1

/-- The main operation (`apply_options`, abstracted to its outcome):
a failure prints and jumps to `error_4`, which is also the fall-through
target. -/
def stageOperation (inp : SessionInput) (reattach : Bool)
    (t : SessionTrace) : SessionTrace :=
  let t1 := { t with opCalls := t.opCalls + 1 }
  match inp.opErr with
  | some _ => stageRelease inp reattach (reportError t1 .opFailed)
  | none => stageRelease inp reattach t1

/-- `libusb_claim_interface`: a failure jumps to `error_3` (skipping the
operation and the release). -/
def stageClaim (inp : SessionInput) (reattach : Bool)
    (t : SessionTrace) : SessionTrace :=
  let t1 := { t with claimCalls := t.claimCalls + 1 }
  match inp.claimErr with
  | some _ => stageReattach inp reattach (reportError t1 .claimFailed)
  | none => stageOperation inp reattach t1

/-- The session of `main` from the kernel-driver query to the close
(lines 555-601).  The `switch` on `libusb_kernel_driver_active`: 0 and
`LIBUSB_ERROR_NOT_SUPPORTED` proceed, 1 sets `reattach_driver` and
detaches (a detach failure jumps to `error_2`), anything else jumps to
`error_2`. -/
def runSession (inp : SessionInput) : SessionTrace :=
  if inp.driverQuery = 0 ∨ inp.driverQuery = LIBUSB_ERROR_NOT_SUPPORTED then
    stageClaim inp false emptyTrace
  else if inp.driverQuery = 1 then
    let t1 := { emptyTrace with detachCalls := 1 }
    match inp.detachErr with
    | some _ => stageClose (reportError t1 .detachFailed)
    | none => stageClaim inp true t1
  else
    stageClose (reportError emptyTrace .queryFailed)

/-! ## CLI mode option and the GUI's legacy button
(sensei-raw-ctl.c lines 394-405, sensei-raw-ctl-gui.c lines 252-259) -/

/-- ASCII lower-casing of one character, as `strcasecmp` compares. -/
def asciiLower (c : Char) : Char :=
  if 'A' ≤ c ∧ c ≤ 'Z' then Char.ofNat (c.toNat + 32) else c

/-- ASCII lower-casing of a string. -/
def lowerStr (s : String) : String :=
  String.mk (s.data.map asciiLower)

/-- `strcasecmp (a, b) == 0`: equality up to ASCII case. -/
def strcasecmpEq (a b : String) : Bool :=
  lowerStr a == lowerStr b

/-- The literal accepted for legacy mode. -/
def modeLegacyStr : String := "legacy"

/-- The literal accepted for normal mode. -/
def modeNormalStr : String := "normal"

/-- The `case 'm'` arm of `parse_options` (lines 394-405): accept
`legacy` or `normal` case-insensitively, reject anything else (the C
code prints an invalid-mode error and exits with failure). -/
def parseMode (s : String) : Option Mode :=
  if strcasecmpEq s modeLegacyStr then some .legacy
  else if strcasecmpEq s modeNormalStr then some .normal
  else none

/-- The mode argument the GUI's legacy button passes
(`on_set_mode_legacy`, gui lines 252-259): `--mode compat`. -/
def guiLegacyModeArg : String := "compat"

/-- Outcome of invoking the CLI with a single `--mode` argument:
either option parsing already exited with failure (before `libusb_init`,
so no device was touched), or the program went on to device discovery. -/
inductive CliModeOutcome where
  | parseError
  | deviceAccess (r : FindResult)
deriving DecidableEq

/-- `main` restricted to a `--mode X` invocation: `parse_options` runs
first (line 528) and exits on an invalid mode before `libusb_init`
(line 532) and discovery (lines 544-545). -/
def runModeCli (devs : List UsbDevice) (arg : String) : CliModeOutcome :=
  match parseMode arg with
  | none => .parseError
  | some _ =>
    .deviceAccess (find_device_list devs USB_VENDOR_STEELSERIES products).1

/-! ## Helper lemmas -/

/-- Layout of the 32-byte command buffer when the initialisers are
in byte range. -/
theorem commandBuffer_layout (b0 b1 b2 : Nat)
    (hb0 : b0 < 256) (hb1 : b1 < 256) (hb2 : b2 < 256) :
    (commandBuffer b0 b1 b2).length = 32 ∧
    (commandBuffer b0 b1 b2).getD 0 9 = b0 ∧
    (commandBuffer b0 b1 b2).getD 1 9 = b1 ∧
    (commandBuffer b0 b1 b2).getD 2 9 = b2 ∧
    ∀ i, i < 32 → 3 ≤ i → (commandBuffer b0 b1 b2).getD i 9 = 0 := by
  refine ⟨by simp [commandBuffer], ?_, ?_, ?_, ?_⟩
  · simp [commandBuffer, Nat.mod_eq_of_lt hb0]
  · simp [commandBuffer, Nat.mod_eq_of_lt hb1]
  · simp [commandBuffer, Nat.mod_eq_of_lt hb2]
  · intro i hi h3
    interval_cases i <;> rfl

/-- A fully evaluated form of `encode_cpi`. -/
theorem encode_cpi_eq (c : Nat) :
    encode_cpi c =
      (min (max (c / 90) 1) 63, decide (c / 90 < 1), decide (63 < c / 90)) := by
  unfold encode_cpi
  rcases Nat.lt_or_ge (c / 90) 1 with h | h
  · have h0 : c / 90 = 0 := by omega
    simp [h0]
  · have h1 : ¬ (c / 90 < 1) := by omega
    rcases Nat.lt_or_ge 63 (c / 90) with h2 | h2
    · simp only [if_neg h1, if_pos h2]
      refine congrArg₂ Prod.mk (by omega) (congrArg₂ Prod.mk ?_ ?_) <;>
        simp [h1, h2]
    · have h3 : ¬ (63 < c / 90) := by omega
      simp only [if_neg h1, if_neg h3]
      refine congrArg₂ Prod.mk (by omega) (congrArg₂ Prod.mk ?_ ?_) <;>
        simp [h1, h3]

/-! ## C1 -/

/-- C1: every settable field's write command is a 32-byte buffer with
byte 0 the field's opcode (six distinct opcodes for mode, intensity,
pulsation, CPI, polling, save-to-ROM), byte 1 the command-specific
sub-selector (1 for LED-off and 2 for LED-on CPI writes; the fixed
constant 0 or 1 for the other commands), byte 2 the single-byte wire
value, and bytes 3 through 31 zero; every enumerated field's wire values
start at 1 and increase by 1 with no gaps, and 0 is never a valid wire
value. -/
theorem C1_command_encoding :
    (∀ m : Mode, (sensei_set_mode (modeCode m)).length = 32 ∧
      (sensei_set_mode (modeCode m)).getD 0 9 = 2 ∧
      (sensei_set_mode (modeCode m)).getD 1 9 = 0 ∧
      (sensei_set_mode (modeCode m)).getD 2 9 = modeCode m ∧
      (∀ i, i < 32 → 3 ≤ i → (sensei_set_mode (modeCode m)).getD i 9 = 0)) ∧
    (∀ x : Intensity, (sensei_set_intensity (intensityCode x)).length = 32 ∧
      (sensei_set_intensity (intensityCode x)).getD 0 9 = 5 ∧
      (sensei_set_intensity (intensityCode x)).getD 1 9 = 1 ∧
      (sensei_set_intensity (intensityCode x)).getD 2 9 = intensityCode x ∧
      (∀ i, i < 32 → 3 ≤ i →
        (sensei_set_intensity (intensityCode x)).getD i 9 = 0)) ∧
    (∀ p : Pulsation, (sensei_set_pulsation (pulsationCode p)).length = 32 ∧
      (sensei_set_pulsation (pulsationCode p)).getD 0 9 = 7 ∧
      (sensei_set_pulsation (pulsationCode p)).getD 1 9 = 1 ∧
      (sensei_set_pulsation (pulsationCode p)).getD 2 9 = pulsationCode p ∧
      (∀ i, i < 32 → 3 ≤ i →
        (sensei_set_pulsation (pulsationCode p)).getD i 9 = 0)) ∧
    (∀ q : Polling, (sensei_set_polling (pollingCode q)).length = 32 ∧
      (sensei_set_polling (pollingCode q)).getD 0 9 = 4 ∧
      (sensei_set_polling (pollingCode q)).getD 1 9 = 0 ∧
      (sensei_set_polling (pollingCode q)).getD 2 9 = pollingCode q ∧
      (∀ i, i < 32 → 3 ≤ i →
        (sensei_set_polling (pollingCode q)).getD i 9 = 0)) ∧
    (∀ c : Nat, 1 ≤ c → c ≤ 63 → ∀ led : Bool,
      (sensei_set_cpi c led).length = 32 ∧
      (sensei_set_cpi c led).getD 0 9 = 3 ∧
      (sensei_set_cpi c led).getD 1 9 = (if led then 2 else 1) ∧
      (sensei_set_cpi c led).getD 2 9 = c ∧
      (∀ i, i < 32 → 3 ≤ i → (sensei_set_cpi c led).getD i 9 = 0)) ∧
    (sensei_save_to_rom.length = 32 ∧ sensei_save_to_rom.getD 0 9 = 9 ∧
      sensei_save_to_rom.getD 1 9 = 0 ∧ sensei_save_to_rom.getD 2 9 = 0 ∧
      (∀ i, i < 32 → 3 ≤ i → sensei_save_to_rom.getD i 9 = 0)) ∧
    List.Nodup [(sensei_set_mode 1).getD 0 9, (sensei_set_intensity 1).getD 0 9,
      (sensei_set_pulsation 1).getD 0 9, (sensei_set_cpi 1 false).getD 0 9,
      (sensei_set_polling 1).getD 0 9, sensei_save_to_rom.getD 0 9] ∧
    [modeCode .legacy, modeCode .normal] = [1, 2] ∧
    [intensityCode .off, intensityCode .low, intensityCode .medium,
      intensityCode .high] = [1, 2, 3, 4] ∧
    [pulsationCode .steady, pulsationCode .slow, pulsationCode .medium,
      pulsationCode .fast] = [1, 2, 3, 4] ∧
    [pollingCode .p1000, pollingCode .p500, pollingCode .p250,
      pollingCode .p125] = [1, 2, 3, 4] ∧
    (∀ m : Mode, modeCode m ≠ 0) ∧ (∀ x : Intensity, intensityCode x ≠ 0) ∧
    (∀ p : Pulsation, pulsationCode p ≠ 0) ∧
    (∀ q : Polling, pollingCode q ≠ 0) := by
  refine ⟨?_, ?_, ?_, ?_, ?_, ?_, ?_, ?_, ?_, ?_, ?_, ?_, ?_, ?_, ?_⟩
  · intro m; cases m <;> decide
  · intro x; cases x <;> decide
  · intro p; cases p <;> decide
  · intro q; cases q <;> decide
  · intro c h1 h2 led
    have h := commandBuffer_layout 3 (if led then 2 else 1) c
      (by omega) (by cases led <;> decide) (by omega)
    exact h
  · decide
  · decide
  · decide
  · decide
  · decide
  · decide
  · intro m; cases m <;> decide
  · intro x; cases x <;> decide
  · intro p; cases p <;> decide
  · intro q; cases q <;> decide

/-- Witness for C1: concrete instantiation of the CPI layout at step 63
with the LED on, and the mode command's opcode for `normal`. -/
theorem C1_command_encoding_witness :
    (sensei_set_cpi 63 true).getD 2 9 = 63 ∧
    (sensei_set_mode (modeCode Mode.normal)).getD 0 9 = 2 :=
  ⟨((C1_command_encoding.2.2.2.2.1 63 (by decide) (by decide)) true).2.2.2.1,
   (C1_command_encoding.1 Mode.normal).2.1⟩

/-! ## C3 -/

/-- C3: for every (validated, non-negative) real CPI input `c`, the
encoder returns `clamp(c / 90, 1, 63)` with truncating division, raising
results below step 1 to 1 with a non-fatal notice and lowering results
above step 63 to 63 with a non-fatal notice; and every valid step
`s ∈ [1,63]` round-trips through its real CPI value `90 * s`. -/
theorem C3_encode_cpi (c : Nat) :
    (encode_cpi c).1 = min (max (c / 90) 1) 63 ∧
    ((encode_cpi c).2.1 = true ↔ c / 90 < 1) ∧
    ((encode_cpi c).2.2 = true ↔ 63 < c / 90) ∧
    1 ≤ (encode_cpi c).1 ∧ (encode_cpi c).1 ≤ 63 ∧
    (∀ s : Nat, 1 ≤ s → s ≤ 63 → (encode_cpi (90 * s)).1 = s) := by
  have h := encode_cpi_eq c
  refine ⟨by rw [h], by rw [h]; simp, by rw [h]; simp, ?_, ?_, ?_⟩
  · rw [h]; simp
  · rw [h]; simp
  · intro s h1 h2
    have hq : (90 * s) / 90 = s := Nat.mul_div_cancel_left s (by norm_num)
    rw [encode_cpi_eq (90 * s), hq]
    show min (max s 1) 63 = s
    omega

/-- Witness for C3: real CPI 900 encodes to step 10 with no notices, and
step 10 round-trips. -/
theorem C3_encode_cpi_witness :
    (encode_cpi 900).1 = min (max (900 / 90) 1) 63 ∧
    (encode_cpi (90 * 10)).1 = 10 :=
  ⟨(C3_encode_cpi 900).1, (C3_encode_cpi 0).2.2.2.2.2 10 (by decide) (by decide)⟩

/-! ## C4 -/

/-- The concrete status report of the spec's example: bytes 3, 2, 5, 10
and 1 at the five protocol offsets, zero elsewhere. -/
def report0 : Nat → Nat := fun i =>
  if i = 102 then 3 else if i = 103 then 2 else if i = 107 then 5
  else if i = 108 then 10 else if i = 128 then 1 else 0

/-- C4: the status decoder extracts exactly the five one-byte fields
intensity, pulsation, CPI-off, CPI-on, polling from the fixed offsets
102, 103, 107, 108, 128 of the 256-byte report; the example report with
bytes intensity=3, pulsation=2, cpi_off=5, cpi_on=10, polling=1 decodes
to intensity medium, pulsation slow, 450 and 900 real CPI, and
1000 Hz polling. -/
theorem C4_load_config :
    (∀ data : Nat → Nat, sensei_load_config data =
      { mode := 0, intensity := data 102, pulsation := data 103,
        cpi_off := data 107, cpi_on := data 108, polling := data 128 }) ∧
    intensityOfCode (sensei_load_config report0).intensity =
      some Intensity.medium ∧
    pulsationOfCode (sensei_load_config report0).pulsation =
      some Pulsation.slow ∧
    90 * (sensei_load_config report0).cpi_off = 450 ∧
    90 * (sensei_load_config report0).cpi_on = 900 ∧
    pollingOfCode (sensei_load_config report0).polling = some Polling.p1000 ∧
    sensei_display_config (sensei_load_config report0) =
      [("Backlight intensity", "medium"), ("Backlight pulsation", "slow"),
       ("Speed in CPI (LED is off)", "450"), ("Speed in CPI (LED is on)", "900"),
       ("Polling frequency", "1000Hz")] := by
  refine ⟨fun data => rfl, ?_, ?_, ?_, ?_, ?_, ?_⟩ <;> decide

/-! ## C2 -/

/-- When every command succeeds, `runWrites` issues the whole list. -/
theorem runWrites_all_ok (send : List Nat → Option Int) (l : List (List Nat))
    (h : ∀ c ∈ l, send c = none) : runWrites send l = (l, none) := by
  induction l with
  | nil => rfl
  | cons c rest ih =>
    have hc : send c = none := h c (by simp)
    have hr := ih (fun x hx => h x (by simp [hx]))
    simp [runWrites, hc, hr]

/-- When `runWrites` reports an error, the issued commands are the
planned prefix up to and including the first failing command, every
earlier command succeeded, and the failure is that command's error. -/
theorem runWrites_error (send : List Nat → Option Int) (l : List (List Nat))
    (e : Int) (h : (runWrites send l).2 = some e) :
    ∃ pre c post, l = pre ++ c :: post ∧
      (runWrites send l).1 = pre ++ [c] ∧ send c = some e ∧
      ∀ c' ∈ pre, send c' = none := by
  induction l with
  | nil => simp [runWrites] at h
  | cons c rest ih =>
    cases hc : send c with
    | some e' =>
      have hrw : runWrites send (c :: rest) = ([c], some e') := by
        simp [runWrites, hc]
      rw [hrw] at h
      simp only [Option.some.injEq] at h
      subst h
      exact ⟨[], c, rest, rfl, by rw [hrw]; rfl, hc, by simp⟩
    | none =>
      have hrw : runWrites send (c :: rest) =
          (c :: (runWrites send rest).1, (runWrites send rest).2) := by
        simp [runWrites, hc]
      rw [hrw] at h
      obtain ⟨pre, c0, post, hsplit, htr, hc0, hpre⟩ := ih h
      refine ⟨c :: pre, c0, post, by simp [hsplit], ?_, hc0, ?_⟩
      · rw [hrw]; simp [htr]
      · intro x hx
        rcases List.mem_cons.mp hx with h1 | h2
        · subst h1; exact hc
        · exact hpre x h2

/-- C2: without `--show`, `apply_options` issues exactly the requested
fields' commands in the fixed relative order mode, polling, intensity,
pulsation, CPI-off, CPI-on, then save-to-ROM only if requested (the
delta is a record, so no supply order exists to matter); if every
transfer succeeds the full planned sequence is issued, and if any
transfer fails that failure is returned, the commands before it all
succeeded, and no later command is attempted. -/
theorem C2_apply_changes_order (dev : Device) (o : Options)
    (nc : SenseiConfig) (hshow : o.show_config = false) :
    plannedWrites o nc =
      (if o.set_mode then [sensei_set_mode nc.mode] else []) ++
      (if o.set_polling then [sensei_set_polling nc.polling] else []) ++
      (if o.set_intensity then [sensei_set_intensity nc.intensity] else []) ++
      (if o.set_pulsation then [sensei_set_pulsation nc.pulsation] else []) ++
      (if o.set_cpi_off then [sensei_set_cpi nc.cpi_off false] else []) ++
      (if o.set_cpi_on then [sensei_set_cpi nc.cpi_on true] else []) ++
      (if o.save_to_rom then [sensei_save_to_rom] else []) ∧
    ((∀ c ∈ plannedWrites o nc, dev.send c = none) →
      apply_options dev o nc = (plannedWrites o nc, .ok .done)) ∧
    (∀ e, (apply_options dev o nc).2 = .error e →
      ∃ pre c post, plannedWrites o nc = pre ++ c :: post ∧
        (apply_options dev o nc).1 = pre ++ [c] ∧ dev.send c = some e ∧
        ∀ c' ∈ pre, dev.send c' = none) := by
  refine ⟨rfl, ?_, ?_⟩
  · intro h
    simp [apply_options, hshow, runWrites_all_ok dev.send _ h]
  · intro e he
    cases hr : (runWrites dev.send (plannedWrites o nc)).2 with
    | none => simp [apply_options, hshow, hr] at he
    | some e' =>
      have he' : e' = e := by
        simpa [apply_options, hshow, hr] using he
      subst he'
      obtain ⟨pre, c, post, hsplit, htr, hc, hpre⟩ :=
        runWrites_error dev.send _ e' hr
      exact ⟨pre, c, post, hsplit,
        by simpa [apply_options, hshow] using htr, hc, hpre⟩

/-- A device on which every transfer succeeds and the report is all
zeros. -/
def devAllOk : Device :=
  { send := fun _ => none, load := .ok (fun _ => 0) }

/-- The spec's example delta: mode, polling, CPI-on requested, nothing
else. -/
def optsDeltaExample : Options :=
  { show_config := false, save_to_rom := false, set_pulsation := false,
    set_mode := true, set_intensity := false, set_polling := true,
    set_cpi_off := false, set_cpi_on := true }

/-- The spec's example values: mode normal (2), polling 500 Hz (2),
CPI-on step 20 (real 1800). -/
def ncDeltaExample : SenseiConfig :=
  { mode := 2, cpi_off := 0, cpi_on := 20, pulsation := 0,
    intensity := 0, polling := 2 }

/-- Witness for C2: for the delta mode=normal, polling=500Hz,
cpi_on=1800 on a device where every transfer succeeds, exactly the
commands mode, polling, CPI-on are issued, in that order. -/
theorem C2_apply_changes_order_witness :
    apply_options devAllOk optsDeltaExample ncDeltaExample =
      (plannedWrites optsDeltaExample ncDeltaExample, .ok .done) ∧
    plannedWrites optsDeltaExample ncDeltaExample =
      [sensei_set_mode 2, sensei_set_polling 2, sensei_set_cpi 20 true] :=
  ⟨(C2_apply_changes_order devAllOk optsDeltaExample ncDeltaExample rfl).2.1
      (fun c _ => rfl),
   by decide⟩

/-! ## C5 -/

/-- `find_device` attempts to open at most one device. -/
theorem find_device_open_once (devs : List UsbDevice) (v p : Nat) :
    ((find_device devs v p).2).length ≤ 1 := by
  unfold find_device
  cases h : devs.find? (deviceMatches v p) with
  | none => simp
  | some d => cases h2 : d.openErr <;> simp [h2]

/-- C5: discovery tries the accepted identifiers in the fixed priority
order 0x1369 then 0x136f; at most one open is ever attempted; when the
first device matching an identifier exists, only it is opened — success
returns it, and an open failure makes the whole discovery fail with that
error without trying another device or the next identifier; when no
enumerated device matches any accepted identifier, discovery returns the
distinguished no-device condition, which is a different constructor from
any open error. -/
theorem C5_discovery (devs : List UsbDevice) :
    products = [0x1369, 0x136f] ∧
    (∀ ps, ((find_device_list devs USB_VENDOR_STEELSERIES ps).2).length ≤ 1) ∧
    (∀ p ps d,
      devs.find? (deviceMatches USB_VENDOR_STEELSERIES p) = some d →
      ((d.openErr = none →
        find_device_list devs USB_VENDOR_STEELSERIES (p :: ps) =
          (.opened d, [d])) ∧
       (∀ e, d.openErr = some e →
        find_device_list devs USB_VENDOR_STEELSERIES (p :: ps) =
          (.openError e, [d])))) ∧
    (∀ ps, (∀ d ∈ devs, ∀ p ∈ ps,
        ¬(d.descOk = true ∧ d.idVendor = USB_VENDOR_STEELSERIES ∧
          d.idProduct = p)) →
      find_device_list devs USB_VENDOR_STEELSERIES ps = (.noDevice, [])) ∧
    (∀ e, FindResult.noDevice ≠ FindResult.openError e) := by
  refine ⟨rfl, ?_, ?_, ?_, ?_⟩
  · intro ps
    induction ps with
    | nil => simp [find_device_list]
    | cons p ps ih =>
      have htr := find_device_open_once devs USB_VENDOR_STEELSERIES p
      rcases hfd : find_device devs USB_VENDOR_STEELSERIES p with ⟨r, tr⟩
      rw [hfd] at htr
      cases r with
      | opened d => simpa [find_device_list, hfd] using htr
      | openError e => simpa [find_device_list, hfd] using htr
      | noDevice => simpa [find_device_list, hfd] using ih
  · intro p ps d hfind
    constructor
    · intro hopen
      have hfd : find_device devs USB_VENDOR_STEELSERIES p =
          (.opened d, [d]) := by
        unfold find_device; rw [hfind]; simp [hopen]
      simp [find_device_list, hfd]
    · intro e hopen
      have hfd : find_device devs USB_VENDOR_STEELSERIES p =
          (.openError e, [d]) := by
        unfold find_device; rw [hfind]; simp [hopen]
      simp [find_device_list, hfd]
  · intro ps
    induction ps with
    | nil => intro _; rfl
    | cons p ps ih =>
      intro hnone
      have hfm : devs.find? (deviceMatches USB_VENDOR_STEELSERIES p) =
          none := by
        rw [List.find?_eq_none]
        intro d hd
        have hn := hnone d hd p (by simp)
        simp only [deviceMatches, Bool.and_eq_true, beq_iff_eq]
        intro hcontra
        exact hn ⟨hcontra.1.1, hcontra.1.2, hcontra.2⟩
      have hfd : find_device devs USB_VENDOR_STEELSERIES p =
          (.noDevice, []) := by
        unfold find_device; rw [hfm]
      rw [find_device_list, hfd]
      exact ih (fun d hd p' hp' => hnone d hd p' (by simp [hp']))
  · intro e h
    exact FindResult.noConfusion h

/-- A device matching the primary SKU whose open fails. -/
def devOpenFail : UsbDevice :=
  { idVendor := 0x1038, idProduct := 0x1369, descOk := true,
    openErr := some (-3) }

/-- Witness for C5: with one matching device whose open fails with -3,
discovery over the full priority list fails with that open error after a
single open attempt, without falling through to the variant SKU. -/
theorem C5_discovery_witness :
    find_device_list [devOpenFail] USB_VENDOR_STEELSERIES
      (USB_PRODUCT_STEELSERIES_SENSEI_RAW ::
        [USB_PRODUCT_STEELSERIES_COD_BO2]) =
      (.openError (-3), [devOpenFail]) :=
  ((C5_discovery [devOpenFail]).2.2.1 USB_PRODUCT_STEELSERIES_SENSEI_RAW
    [USB_PRODUCT_STEELSERIES_COD_BO2] devOpenFail (by decide)).2 (-3) rfl

/-! ## C6 -/

/-- C6 (amended): in every session that reaches a successful interface
claim, teardown calls release exactly once, then reattach exactly once
iff a kernel driver was detached, then close exactly once, regardless of
whether the main operation succeeded; every teardown step is attempted
even when an earlier step failed; the failures are reported in the order
encountered (the first failure of the session first — but later teardown
failures are reported as well, even when an earlier error exists), and
the exit status is a failure iff any step failed, so a release or
reattach failure after a successful main operation never yields a false
success. -/
theorem C6_teardown (inp : SessionInput)
    (hreach : inp.driverQuery = 0 ∨
      inp.driverQuery = LIBUSB_ERROR_NOT_SUPPORTED ∨
      (inp.driverQuery = 1 ∧ inp.detachErr = none))
    (hclaim : inp.claimErr = none) :
    (runSession inp).releaseCalls = 1 ∧
    (runSession inp).attachCalls =
      (if inp.driverQuery = 1 then 1 else 0) ∧
    (runSession inp).closeCalls = 1 ∧
    (runSession inp).opCalls = 1 ∧
    (runSession inp).errors =
      (if inp.opErr.isSome then [SessionError.opFailed] else []) ++
      (if inp.releaseErr.isSome then [SessionError.releaseFailed] else []) ++
      (if inp.driverQuery = 1 ∧ inp.attachErr.isSome then
        [SessionError.attachFailed] else []) ∧
    ((runSession inp).status = 0 ↔ (runSession inp).errors = []) := by
  obtain ⟨q, dErr, cErr, oErr, rErr, aErr⟩ := inp
  simp only at hclaim
  subst hclaim
  rcases hreach with hq | hq | ⟨hq, hd⟩
  · simp only at hq
    subst hq
    cases oErr <;> cases rErr <;>
      simp [runSession, stageClaim, stageOperation, stageRelease,
        stageReattach, stageClose, reportError, emptyTrace,
        LIBUSB_ERROR_NOT_SUPPORTED]
  · simp only at hq
    subst hq
    cases oErr <;> cases rErr <;>
      simp [runSession, stageClaim, stageOperation, stageRelease,
        stageReattach, stageClose, reportError, emptyTrace,
        LIBUSB_ERROR_NOT_SUPPORTED]
  · simp only at hq hd
    subst hq
    subst hd
    cases oErr <;> cases rErr <;> cases aErr <;>
      simp [runSession, stageClaim, stageOperation, stageRelease,
        stageReattach, stageClose, reportError, emptyTrace,
        LIBUSB_ERROR_NOT_SUPPORTED]

/-- A session where the main operation and the release both fail. -/
def inpOpReleaseFail : SessionInput :=
  { driverQuery := 0, detachErr := none, claimErr := none,
    opErr := some (-7), releaseErr := some (-5), attachErr := none }

/-- C6 counterexample: when the main operation fails and the release
then also fails, the release failure is reported too — its message is
printed after the operation failure — refuting the claim that later
teardown failures are reported only when no earlier error exists. -/
theorem C6_teardown_counterexample :
    (runSession inpOpReleaseFail).errors =
      [SessionError.opFailed, SessionError.releaseFailed] ∧
    SessionError.releaseFailed ∈ (runSession inpOpReleaseFail).errors ∧
    (runSession inpOpReleaseFail).errors ≠ [SessionError.opFailed] := by
  decide

/-- A session where only the release fails, after a detached driver. -/
def inpReleaseFailOnly : SessionInput :=
  { driverQuery := 1, detachErr := none, claimErr := none,
    opErr := none, releaseErr := some (-5), attachErr := none }

/-- Witness for C6: concrete instantiation with a detached driver and a
failing release. -/
theorem C6_teardown_witness :
    (runSession inpReleaseFailOnly).releaseCalls = 1 ∧
    (runSession inpReleaseFailOnly).closeCalls = 1 :=
  ⟨(C6_teardown inpReleaseFailOnly (Or.inr (Or.inr ⟨rfl, rfl⟩)) rfl).1,
   (C6_teardown inpReleaseFailOnly (Or.inr (Or.inr ⟨rfl, rfl⟩)) rfl).2.2.1⟩

/-! ## C7 -/

/-- C7: the kernel-driver query has exactly three live outcomes: not
bound (0) proceeds directly to claim with no detach; a platform that
does not support the query behaves exactly as not bound; bound (1)
detaches, records the fact, and teardown later reattaches; and if the
detach itself fails, the session short-circuits — claim, operation and
release are never attempted and the only remaining action is closing the
handle, with the detach failure reported. -/
theorem C7_driver_query (inp : SessionInput) :
    (inp.driverQuery = 0 →
      (runSession inp).detachCalls = 0 ∧ (runSession inp).claimCalls = 1) ∧
    (inp.driverQuery = LIBUSB_ERROR_NOT_SUPPORTED →
      runSession inp = runSession { inp with driverQuery := 0 }) ∧
    (inp.driverQuery = 1 → inp.detachErr = none →
      (runSession inp).detachCalls = 1 ∧ (runSession inp).claimCalls = 1 ∧
      (runSession inp).attachCalls = 1) ∧
    (inp.driverQuery = 1 → ∀ e, inp.detachErr = some e →
      runSession inp =
        { detachCalls := 1, claimCalls := 0, opCalls := 0,
          releaseCalls := 0, attachCalls := 0, closeCalls := 1,
          errors := [SessionError.detachFailed], status := 1 }) := by
  obtain ⟨q, dErr, cErr, oErr, rErr, aErr⟩ := inp
  refine ⟨?_, ?_, ?_, ?_⟩
  · intro hq
    simp only at hq
    subst hq
    cases cErr <;> cases oErr <;> cases rErr <;>
      simp [runSession, stageClaim, stageOperation, stageRelease,
        stageReattach, stageClose, reportError, emptyTrace,
        LIBUSB_ERROR_NOT_SUPPORTED]
  · intro hq
    simp only at hq
    subst hq
    cases cErr <;> cases oErr <;> cases rErr <;> cases aErr <;>
      simp [runSession, stageClaim, stageOperation, stageRelease,
        stageReattach, stageClose, reportError, emptyTrace,
        LIBUSB_ERROR_NOT_SUPPORTED]
  · intro hq hd
    simp only at hq hd
    subst hq
    subst hd
    cases cErr <;> cases oErr <;> cases rErr <;> cases aErr <;>
      simp [runSession, stageClaim, stageOperation, stageRelease,
        stageReattach, stageClose, reportError, emptyTrace,
        LIBUSB_ERROR_NOT_SUPPORTED]
  · intro hq e hd
    simp only at hq hd
    subst hq
    subst hd
    simp [runSession, stageClose, reportError, emptyTrace,
      LIBUSB_ERROR_NOT_SUPPORTED]

/-- A session whose kernel-driver detach fails. -/
def inpDetachFail : SessionInput :=
  { driverQuery := 1, detachErr := some (-9), claimErr := none,
    opErr := none, releaseErr := none, attachErr := none }

/-- Witness for C7: concrete short-circuit on a failing detach. -/
theorem C7_driver_query_witness :
    runSession inpDetachFail =
      { detachCalls := 1, claimCalls := 0, opCalls := 0,
        releaseCalls := 0, attachCalls := 0, closeCalls := 1,
        errors := [SessionError.detachFailed], status := 1 } :=
  (C7_driver_query inpDetachFail).2.2.2 rfl (-9) rfl

/-! ## C8 -/

/-- C8: for every decoded snapshot, exactly five labelled lines are
emitted in the fixed order intensity, pulsation, CPI-off, CPI-on,
polling; both CPI values are printed already multiplied by 90; a
recognised polling value is printed with the `Hz` suffix; and a byte
outside an enumerated field's recognised range is not an error — that
field prints `unknown` and the display still produces all five lines. -/
theorem C8_display (c : SenseiConfig) :
    (sensei_display_config c).length = 5 ∧
    (sensei_display_config c).map Prod.fst =
      ["Backlight intensity", "Backlight pulsation",
       "Speed in CPI (LED is off)", "Speed in CPI (LED is on)",
       "Polling frequency"] ∧
    (sensei_display_config c).map Prod.snd =
      [intensityName (intensityOfCode c.intensity),
       pulsationName (pulsationOfCode c.pulsation),
       toString (90 * c.cpi_off), toString (90 * c.cpi_on),
       pollingName (pollingOfCode c.polling)] ∧
    (∀ p, pollingOfCode c.polling = some p →
      pollingName (pollingOfCode c.polling) = toString (pollingHz p) ++ "Hz") ∧
    (intensityOfCode c.intensity = none →
      intensityName (intensityOfCode c.intensity) = "unknown") ∧
    (pulsationOfCode c.pulsation = none →
      pulsationName (pulsationOfCode c.pulsation) = "unknown") ∧
    (pollingOfCode c.polling = none →
      pollingName (pollingOfCode c.polling) = "unknown") := by
  refine ⟨rfl, rfl, rfl, ?_, ?_, ?_, ?_⟩
  · intro p hp
    rw [hp]
    cases p <;> rfl
  · intro h; rw [h]; rfl
  · intro h; rw [h]; rfl
  · intro h; rw [h]; rfl

/-- A snapshot whose intensity and pulsation bytes are out of range. -/
def snapshotOutOfRange : SenseiConfig :=
  { mode := 0, cpi_off := 5, cpi_on := 10, pulsation := 7,
    intensity := 9, polling := 2 }

/-- Witness for C8: a snapshot with unknown intensity and pulsation
bytes still yields five lines, prints `unknown` for those fields and the
Hz-suffixed polling value. -/
theorem C8_display_witness :
    (sensei_display_config snapshotOutOfRange).length = 5 ∧
    pollingName (pollingOfCode snapshotOutOfRange.polling) =
      toString (pollingHz Polling.p500) ++ "Hz" ∧
    intensityName (intensityOfCode snapshotOutOfRange.intensity) =
      "unknown" ∧
    pulsationName (pulsationOfCode snapshotOutOfRange.pulsation) =
      "unknown" :=
  ⟨(C8_display snapshotOutOfRange).1,
   (C8_display snapshotOutOfRange).2.2.2.1 Polling.p500 rfl,
   (C8_display snapshotOutOfRange).2.2.2.2.1 rfl,
   (C8_display snapshotOutOfRange).2.2.2.2.2.1 rfl⟩

/-! ## C9 -/

/-- C9: when the show-configuration flag is set, `apply_options` only
performs the status read and display and returns its outcome; no write
command and no save-to-ROM command is issued, even when set-field flags
or the save flag are also set, so the device configuration is left
unchanged. -/
theorem C9_show_config_frame (dev : Device) (o : Options)
    (nc : SenseiConfig) (hshow : o.show_config = true) :
    (apply_options dev o nc).1 = [] ∧
    (apply_options dev o nc).2 =
      (match dev.load with
       | .error e => .error e
       | .ok report =>
         .ok (.shown (sensei_display_config (sensei_load_config report)))) := by
  cases hl : dev.load <;> simp [apply_options, hshow, hl]

/-- Options with the show flag and every set/save flag raised at once. -/
def optsShowAll : Options :=
  { show_config := true, save_to_rom := true, set_pulsation := true,
    set_mode := true, set_intensity := true, set_polling := true,
    set_cpi_off := true, set_cpi_on := true }

/-- Witness for C9: with show plus every set/save flag raised, no write
command at all is issued. -/
theorem C9_show_config_frame_witness :
    (apply_options devAllOk optsShowAll ncDeltaExample).1 = [] :=
  (C9_show_config_frame devAllOk optsShowAll ncDeltaExample rfl).1

/-! ## C10 -/

/-- C10: the mode option accepts exactly `legacy` and `normal` compared
case-insensitively (ASCII, as `strcasecmp` does); any other argument is
rejected by option parsing, which exits with failure before any device
access — in particular `compat`, the argument the GUI's legacy-mode
button passes, is rejected, so that invocation always fails without
touching the device. -/
theorem C10_mode_option :
    (∀ s : String, parseMode s = some Mode.legacy ↔
      lowerStr s = modeLegacyStr) ∧
    (∀ s : String, parseMode s = some Mode.normal ↔
      lowerStr s = modeNormalStr) ∧
    (∀ s : String, parseMode s = none ↔
      (lowerStr s ≠ modeLegacyStr ∧ lowerStr s ≠ modeNormalStr)) ∧
    parseMode (String.mk ['L', 'e', 'G', 'a', 'C', 'y']) =
      some Mode.legacy ∧
    parseMode guiLegacyModeArg = none ∧
    (∀ devs, runModeCli devs guiLegacyModeArg =
      CliModeOutcome.parseError) := by
  have hleg : lowerStr modeLegacyStr = modeLegacyStr := by decide
  have hnorm : lowerStr modeNormalStr = modeNormalStr := by decide
  have hne : modeLegacyStr ≠ modeNormalStr := by decide
  refine ⟨?_, ?_, ?_, by decide, by decide, ?_⟩
  · intro s
    unfold parseMode strcasecmpEq
    rw [hleg, hnorm]
    by_cases h1 : lowerStr s = modeLegacyStr
    · simp [h1]
    · by_cases h2 : lowerStr s = modeNormalStr <;> simp [h1, h2]
  · intro s
    have hne' : ¬(modeNormalStr = modeLegacyStr) := fun hcon => hne hcon.symm
    unfold parseMode strcasecmpEq
    rw [hleg, hnorm]
    by_cases h1 : lowerStr s = modeLegacyStr
    · simp [h1]
      exact hne
    · by_cases h2 : lowerStr s = modeNormalStr <;> simp [h1, h2, hne']
  · intro s
    have hne' : ¬(modeNormalStr = modeLegacyStr) := fun hcon => hne hcon.symm
    unfold parseMode strcasecmpEq
    rw [hleg, hnorm]
    by_cases h1 : lowerStr s = modeLegacyStr
    · simp [h1]
    · by_cases h2 : lowerStr s = modeNormalStr <;> simp [h1, h2, hne']
  · intro devs
    have h : parseMode guiLegacyModeArg = none := by decide
    unfold runModeCli
    rw [h]

end Sensei
